import Mathlib

/-!
Verification of the Xenon emulator core hardware model: a shallow embedding of
the PCI bridge interrupt routing, the PCI bridge MMIO and configuration-space
dispatch, the SMC register file, FIFO protocol and command processing, and the
`SystemDevice` base class, together with theorems settling the stated claims.

Machine integers are modelled as `Nat` with explicit reduction modulo powers of
two where the C++ types overflow; `memcpy` between registers and byte buffers
is modelled with explicit little-endian byte lists; fallible buffer indexing is
modelled with `Option`.
-/

namespace Xenon

/-- Byte `k` (little-endian) of the value `v`, as produced by a `memcpy` out of
an unsigned integer on a little-endian host. -/
def byteAt (v k : Nat) : Nat := v / 2 ^ (8 * k) % 256

/-- The first `n` little-endian bytes of `v`: models `memcpy(data, &reg, n)`. -/
def bytesLE (v n : Nat) : List Nat := (List.range n).map (byteAt v)

/-- Assemble a little-endian byte list into a value: models
`u64 tmp = 0; memcpy(&tmp, data, size)`. -/
def assembleLE (bs : List Nat) : Nat := bs.foldr (fun b acc => b + 256 * acc) 0

/-- Overwrite the low `bs.length` bytes of the register value `old` with the
bytes `bs`, keeping the higher bytes: models `memcpy(&reg, data, size)` for
`size` not larger than the register width. -/
def storeLow (old : Nat) (bs : List Nat) : Nat :=
  assembleLE bs + (old / 2 ^ (8 * bs.length)) * 2 ^ (8 * bs.length)

/-- Overwrite `buf` starting at index `pos` with the bytes `bs`:
models `memcpy(&buf[pos], data, size)` inside a byte array. -/
def writeListAt (buf : List Nat) (pos : Nat) (bs : List Nat) : List Nat :=
  (List.range bs.length).foldl (fun b k => b.set (pos + k) (bs.getD k 0)) buf

/-- Store the bytes `bs` at offset `off` of a byte-addressed register file. -/
def storeBytesAt (cfg : Nat → Nat) (off : Nat) (bs : List Nat) : Nat → Nat :=
  fun a => if off ≤ a ∧ a < off + bs.length then bs.getD (a - off) 0 else cfg a

/-- Read `n` bytes at offset `off` of a byte-addressed register file:
models `memcpy(data, &cfg[off], n)`. -/
def readBytesAt (cfg : Nat → Nat) (off n : Nat) : List Nat :=
  (List.range n).map (fun k => cfg (off + k))

/-! ## PCI bridge: interrupt priority registers and `RouteInterrupt`
(src/Xenon/Core/PCI/Bridge/PCIBridge.cpp) -/

/-- The wired interrupt sources of the PCI bridge, one per `PRIO_*` constant
appearing in the `switch` of `PCIBridge::RouteInterrupt`. -/
inductive Prio where
  | clock | sataOdd | sataHdd | smm
  | ohci0 | ohci1 | ehci0 | ehci1
  | xma | audio | enet | graphics | xps | sfcx
  deriving DecidableEq, Repr

/-- One interrupt-priority register of the bridge (struct fields of
`pciBridgeState.PRIO_REG_*`). -/
structure PrioReg where
  hexData : Nat := 0
  intEnabled : Bool := false
  latched : Bool := false
  targetCPU : Nat := 0
  cpuIRQ : Nat := 0
  deriving Repr, DecidableEq

/-- The mutable state of the PCI bridge (`pciBridgeState` plus the bridge's own
config space is modelled separately for the configuration claims). -/
structure PCIBridgeState where
  REG_EA000000 : Nat := 0
  REG_EA000004 : Nat := 0
  REG_EA00000C : Nat := 0x7CFF
  PRIO_REG_CLCK : PrioReg := {}
  PRIO_REG_ODD : PrioReg := {}
  PRIO_REG_HDD : PrioReg := {}
  PRIO_REG_SMM : PrioReg := {}
  PRIO_REG_OHCI0 : PrioReg := {}
  PRIO_REG_OHCI1 : PrioReg := {}
  PRIO_REG_EHCI0 : PrioReg := {}
  PRIO_REG_EHCI1 : PrioReg := {}
  PRIO_REG_XMA : PrioReg := {}
  PRIO_REG_AUDIO : PrioReg := {}
  PRIO_REG_ENET : PrioReg := {}
  PRIO_REG_GRAPHICS : PrioReg := {}
  PRIO_REG_XPS : PrioReg := {}
  PRIO_REG_SFCX : PrioReg := {}
  deriving Repr, DecidableEq

/-- A call delivered to the IIC collaborator (`xenonIIC->genInterrupt`). -/
inductive IICCall where
  | genInterrupt (prio : Prio) (cpu : Nat)
  deriving DecidableEq, Repr

/-- The interrupt-priority register the bridge consults for a given source. -/
def PCIBridgeState.prioRegOf (st : PCIBridgeState) : Prio → PrioReg
  | .clock => st.PRIO_REG_CLCK
  | .sataOdd => st.PRIO_REG_ODD
  | .sataHdd => st.PRIO_REG_HDD
  | .smm => st.PRIO_REG_SMM
  | .ohci0 => st.PRIO_REG_OHCI0
  | .ohci1 => st.PRIO_REG_OHCI1
  | .ehci0 => st.PRIO_REG_EHCI0
  | .ehci1 => st.PRIO_REG_EHCI1
  | .xma => st.PRIO_REG_XMA
  | .audio => st.PRIO_REG_AUDIO
  | .enet => st.PRIO_REG_ENET
  | .graphics => st.PRIO_REG_GRAPHICS
  | .xps => st.PRIO_REG_XPS
  | .sfcx => st.PRIO_REG_SFCX

/-- `PCIBridge::RouteInterrupt(prio, targetCPU)`: the list of IIC calls the
bridge performs.  Every non-graphics source is gated on its register's
`intEnabled` bit and delivered to the register's `targetCPU`; `GRAPHICS` and
`XPS` are gated only on the caller-provided override being distinct from the
`0xFF` sentinel and are delivered to the override.  The bridge state is not
modified and the function returns `false` in the source. -/
def PCIBridge.RouteInterrupt (st : PCIBridgeState) (prio : Prio) (targetCPU : Nat) :
    List IICCall :=
  match prio with
  | .clock =>
    if st.PRIO_REG_CLCK.intEnabled then
      [.genInterrupt .clock st.PRIO_REG_CLCK.targetCPU] else []
  | .sataOdd =>
    if st.PRIO_REG_ODD.intEnabled then
      [.genInterrupt .sataOdd st.PRIO_REG_ODD.targetCPU] else []
  | .sataHdd =>
    if st.PRIO_REG_HDD.intEnabled then
      [.genInterrupt .sataHdd st.PRIO_REG_HDD.targetCPU] else []
  | .smm =>
    if st.PRIO_REG_SMM.intEnabled then
      [.genInterrupt .smm st.PRIO_REG_SMM.targetCPU] else []
  | .ohci0 =>
    if st.PRIO_REG_OHCI0.intEnabled then
      [.genInterrupt .ohci0 st.PRIO_REG_OHCI0.targetCPU] else []
  | .ohci1 =>
    if st.PRIO_REG_OHCI1.intEnabled then
      [.genInterrupt .ohci1 st.PRIO_REG_OHCI1.targetCPU] else []
  | .ehci0 =>
    if st.PRIO_REG_EHCI0.intEnabled then
      [.genInterrupt .ehci0 st.PRIO_REG_EHCI0.targetCPU] else []
  | .ehci1 =>
    if st.PRIO_REG_EHCI1.intEnabled then
      [.genInterrupt .ehci1 st.PRIO_REG_EHCI1.targetCPU] else []
  | .xma =>
    if st.PRIO_REG_XMA.intEnabled then
      [.genInterrupt .xma st.PRIO_REG_XMA.targetCPU] else []
  | .audio =>
    if st.PRIO_REG_AUDIO.intEnabled then
      [.genInterrupt .audio st.PRIO_REG_AUDIO.targetCPU] else []
  | .enet =>
    if st.PRIO_REG_ENET.intEnabled then
      [.genInterrupt .enet st.PRIO_REG_ENET.targetCPU] else []
  | .graphics =>
    if targetCPU ≠ 0xFF then [.genInterrupt .graphics targetCPU] else []
  | .xps =>
    if targetCPU ≠ 0xFF then [.genInterrupt .xps targetCPU] else []
  | .sfcx =>
    if st.PRIO_REG_SFCX.intEnabled then
      [.genInterrupt .sfcx st.PRIO_REG_SFCX.targetCPU] else []

end Xenon

namespace Xenon

/-! ## Theorems for the interrupt-routing claims -/

/-- C1 (counterexample): the claim fails on the code.  With the `GRAPHICS`
source's `intEnabled` bit clear, `RouteInterrupt(GRAPHICS, 0)` still produces
an `IIC.genInterrupt` call, because the graphics cases of the switch never
consult `intEnabled`. -/
theorem routeInterrupt_graphics_ignores_intEnabled :
    (({} : PCIBridgeState).prioRegOf .graphics).intEnabled = false ∧
    PCIBridge.RouteInterrupt {} .graphics 0 = [.genInterrupt .graphics 0] ∧
    PCIBridge.RouteInterrupt {} .graphics 0 ≠ [] := by
  refine ⟨rfl, rfl, ?_⟩
  decide

/-- C1 (amended): for every wired source other than `GRAPHICS` and `XPS`, if
the source's `intEnabled` bit is 0 then `RouteInterrupt(S, override)` produces
no `IIC.genInterrupt` call, for any override value. -/
theorem routeInterrupt_disabled_no_call (st : PCIBridgeState) (prio : Prio)
    (cpu : Nat) (hg : prio ≠ .graphics) (hx : prio ≠ .xps)
    (hdis : (st.prioRegOf prio).intEnabled = false) :
    PCIBridge.RouteInterrupt st prio cpu = [] := by
  cases prio <;>
    simp_all [PCIBridge.RouteInterrupt, PCIBridgeState.prioRegOf]

/-- C1 (witness): the amended theorem applied at a concrete disabled source. -/
theorem routeInterrupt_disabled_no_call_witness :
    PCIBridge.RouteInterrupt {} .clock 3 = [] :=
  routeInterrupt_disabled_no_call {} .clock 3 (by decide) (by decide) rfl

/-- C8: for `GRAPHICS` and `XPS`, a call with the sentinel override `0xFF`
produces no IIC call, and a call with any other override delivers the
interrupt to the caller-provided override (not the configured `targetCPU`). -/
theorem routeInterrupt_graphics_override (st : PCIBridgeState) (cpu : Nat)
    (h : cpu ≠ 0xFF) :
    PCIBridge.RouteInterrupt st .graphics 0xFF = [] ∧
    PCIBridge.RouteInterrupt st .xps 0xFF = [] ∧
    PCIBridge.RouteInterrupt st .graphics cpu = [.genInterrupt .graphics cpu] ∧
    PCIBridge.RouteInterrupt st .xps cpu = [.genInterrupt .xps cpu] := by
  refine ⟨?_, ?_, ?_, ?_⟩ <;> simp [PCIBridge.RouteInterrupt, h]

/-- C8 (witness): the theorem applied at a concrete state and override. -/
theorem routeInterrupt_graphics_override_witness :
    PCIBridge.RouteInterrupt {} .graphics 0xFF = [] ∧
    PCIBridge.RouteInterrupt {} .xps 0xFF = [] ∧
    PCIBridge.RouteInterrupt {} .graphics 2 = [.genInterrupt .graphics 2] ∧
    PCIBridge.RouteInterrupt {} .xps 2 = [.genInterrupt .xps 2] :=
  routeInterrupt_graphics_override {} 2 (by decide)

end Xenon

namespace Xenon

/-! ## PCI bridge: MMIO window dispatch (`PCIBridge::Read` / `PCIBridge::Write`)
and configuration-space dispatch (`PCIBridge::ConfigRead` / `ConfigWrite`). -/

/-- Base of the bridge's own MMIO window.  Modelled from the spec: the
`PCI_BRIDGE_BASE_ADDRESS` constant lives in a header that is not under `src/`;
the spec gives the window `0xEA00_0000..0xEA00_FFFF`. -/
def PCI_BRIDGE_BASE_ADDRESS : Nat := 0xEA000000

/-- End of the bridge's own MMIO window (inclusive, as the source compares with
`<=`).  Modelled from the spec: the constant's header is not under `src/`. -/
def PCI_BRIDGE_BASE_END_ADDRESS : Nat := 0xEA00FFFF

/-- An attached PCI device as seen by the bridge's scan loop: its
`IsAddressMappedInBAR` predicate and the effect of its `Read` on the data
buffer (an opaque collaborator for the bridge-level claims). -/
structure PCIDevSim where
  isMappedInBAR : Nat → Bool
  readData : Nat → List Nat → Nat → List Nat

/-- A call the bridge forwards to an attached device. -/
inductive BridgeDevCall where
  | devWrite (addr : Nat) (data : List Nat)
  | devConfigWrite (name : String) (addr : Nat) (data : List Nat)
  deriving DecidableEq, Repr

/-- `PCIBridge::Read(addr, data, size)`: inside the bridge's own window the
switch copies the named register into the buffer, and an unknown register logs
an error and leaves the buffer as it was (returning `true` either way).
Outside the window the first device whose BAR maps the 32-bit truncated
address is read; with no match the buffer is filled with `0xFF` and the call
fails. -/
def PCIBridge.Read (st : PCIBridgeState) (devs : List PCIDevSim) (addr : Nat)
    (prev : List Nat) (size : Nat) : Bool × List Nat :=
  if PCI_BRIDGE_BASE_ADDRESS ≤ addr ∧ addr ≤ PCI_BRIDGE_BASE_END_ADDRESS then
    if addr = 0xEA000000 then (true, bytesLE st.REG_EA000000 size)
    else if addr = 0xEA000004 then (true, bytesLE st.REG_EA000004 size)
    else if addr = 0xEA00000C then (true, bytesLE st.REG_EA00000C size)
    else if addr = 0xEA000010 then (true, bytesLE st.PRIO_REG_CLCK.hexData size)
    else if addr = 0xEA000014 then (true, bytesLE st.PRIO_REG_ODD.hexData size)
    else if addr = 0xEA000018 then (true, bytesLE st.PRIO_REG_HDD.hexData size)
    else if addr = 0xEA00001C then (true, bytesLE st.PRIO_REG_SMM.hexData size)
    else if addr = 0xEA000020 then (true, bytesLE st.PRIO_REG_OHCI0.hexData size)
    else if addr = 0xEA000024 then (true, bytesLE st.PRIO_REG_OHCI1.hexData size)
    else if addr = 0xEA000028 then (true, bytesLE st.PRIO_REG_EHCI0.hexData size)
    else if addr = 0xEA00002C then (true, bytesLE st.PRIO_REG_EHCI1.hexData size)
    else if addr = 0xEA000038 then (true, bytesLE st.PRIO_REG_ENET.hexData size)
    else if addr = 0xEA00003C then (true, bytesLE st.PRIO_REG_XMA.hexData size)
    else if addr = 0xEA000040 then (true, bytesLE st.PRIO_REG_AUDIO.hexData size)
    else if addr = 0xEA000044 then (true, bytesLE st.PRIO_REG_SFCX.hexData size)
    else (true, prev)
  else
    match devs.find? (fun d => d.isMappedInBAR (addr % 2 ^ 32)) with
    | some d => (true, d.readData addr prev size)
    | none => (false, List.replicate size 0xFF)

/-- Update of one priority register by `PCIBridge::Write`: the raw word gets
the written bytes and the derived fields are recomputed from the (up to
64-bit) value assembled from the written data. -/
def PrioReg.update (r : PrioReg) (data : List Nat) (tmp : Nat) : PrioReg :=
  { hexData := storeLow r.hexData (data.take 4)
    intEnabled := (tmp &&& 0x00800000) >>> 20 ≠ 0
    latched := (tmp &&& 0x00200000) >>> 20 ≠ 0
    targetCPU := (tmp &&& 0x00003F00) >>> 8
    cpuIRQ := (tmp &&& 0x0000003F) <<< 2 }

/-- `PCIBridge::Write(addr, data, size)`: the result flag, the new bridge
state, and the calls forwarded to attached devices.  In the bridge's own
window the named register is updated (priority registers also re-derive their
fields from the assembled word); an unknown register logs and changes
nothing, returning `true`.  Outside the window the first device whose BAR
maps the truncated address receives the write; with no match the call fails. -/
def PCIBridge.Write (st : PCIBridgeState) (devs : List PCIDevSim) (addr : Nat)
    (data : List Nat) : Bool × PCIBridgeState × List BridgeDevCall :=
  let tmp := assembleLE (data.take 8)
  if PCI_BRIDGE_BASE_ADDRESS ≤ addr ∧ addr ≤ PCI_BRIDGE_BASE_END_ADDRESS then
    if addr = 0xEA000000 then
      (true, { st with REG_EA000000 := storeLow st.REG_EA000000 (data.take 4) }, [])
    else if addr = 0xEA000004 then
      (true, { st with REG_EA000004 := storeLow st.REG_EA000004 (data.take 4) }, [])
    else if addr = 0xEA00000C then
      (true, { st with REG_EA00000C := storeLow st.REG_EA00000C (data.take 4) }, [])
    else if addr = 0xEA000010 then
      (true, { st with PRIO_REG_CLCK := st.PRIO_REG_CLCK.update data tmp }, [])
    else if addr = 0xEA000014 then
      (true, { st with PRIO_REG_ODD := st.PRIO_REG_ODD.update data tmp }, [])
    else if addr = 0xEA000018 then
      (true, { st with PRIO_REG_HDD := st.PRIO_REG_HDD.update data tmp }, [])
    else if addr = 0xEA00001C then
      (true, { st with PRIO_REG_SMM := st.PRIO_REG_SMM.update data tmp }, [])
    else if addr = 0xEA000020 then
      (true, { st with PRIO_REG_OHCI0 := st.PRIO_REG_OHCI0.update data tmp }, [])
    else if addr = 0xEA000024 then
      (true, { st with PRIO_REG_OHCI1 := st.PRIO_REG_OHCI1.update data tmp }, [])
    else if addr = 0xEA000028 then
      (true, { st with PRIO_REG_EHCI0 := st.PRIO_REG_EHCI0.update data tmp }, [])
    else if addr = 0xEA00002C then
      (true, { st with PRIO_REG_EHCI1 := st.PRIO_REG_EHCI1.update data tmp }, [])
    else if addr = 0xEA000038 then
      (true, { st with PRIO_REG_ENET := st.PRIO_REG_ENET.update data tmp }, [])
    else if addr = 0xEA00003C then
      (true, { st with PRIO_REG_XMA := st.PRIO_REG_XMA.update data tmp }, [])
    else if addr = 0xEA000040 then
      (true, { st with PRIO_REG_AUDIO := st.PRIO_REG_AUDIO.update data tmp }, [])
    else if addr = 0xEA000044 then
      (true, { st with PRIO_REG_SFCX := st.PRIO_REG_SFCX.update data tmp }, [])
    else (true, st, [])
  else
    match devs.find? (fun d => d.isMappedInBAR (addr % 2 ^ 32)) with
    | some _ => (true, st, [.devWrite addr data])
    | none => (false, st, [])

/-- Field `busNum` of the composite configuration address.  Modelled from the
spec: the `PCIE_CONFIG_ADDR` bitfield layout `{busNum:8, devNum:5, funcNum:3,
regOffset:8}` lives in a header that is not under `src/`. -/
def PCIE_CONFIG_ADDR.busNum (w : Nat) : Nat := w >>> 16 &&& 0xFF

/-- Field `devNum` of the composite configuration address (see `busNum`). -/
def PCIE_CONFIG_ADDR.devNum (w : Nat) : Nat := w >>> 11 &&& 0x1F

/-- Field `functNum` of the composite configuration address (see `busNum`). -/
def PCIE_CONFIG_ADDR.functNum (w : Nat) : Nat := w >>> 8 &&& 0x7

/-- Field `regOffset` of the composite configuration address (see `busNum`). -/
def PCIE_CONFIG_ADDR.regOffset (w : Nat) : Nat := w &&& 0xFF

/-- The fixed device-number table of `PCIBridge::ConfigRead`/`ConfigWrite`.
`none` is the switch's `default` branch (early return); note that device
numbers `0x4`/`0x5` with a function number other than 0/1 fall through with the
empty device name, exactly as the C++ leaves `currentDevName` empty. -/
def PCIBridge.devNumToName (dev fn : Nat) : Option String :=
  if dev = 0x0 then some "XMA"
  else if dev = 0x1 then some "CDROM"
  else if dev = 0x2 then some "HDD"
  else if dev = 0x4 then some (if fn = 0 then "OHCI0" else if fn = 1 then "EHCI0" else "")
  else if dev = 0x5 then some (if fn = 0 then "OHCI1" else if fn = 1 then "EHCI1" else "")
  else if dev = 0x7 then some "ETHERNET"
  else if dev = 0x8 then some "SFCX"
  else if dev = 0x9 then some "AUDIOCTRLR"
  else if dev = 0xA then some "SMC"
  else if dev = 0xF then some "5841"
  else none

/-- A connected device as seen by configuration dispatch: its name and the
effect of its `ConfigRead` on the data buffer. -/
structure ConfigDevSim where
  configReadData : Nat → List Nat → Nat → List Nat

/-- `PCIBridge::ConfigRead(addr, data, size)`: bus 0 device 0 reads the
bridge's own config space; a device number outside the table logs and returns
`true` with the buffer untouched; a named device that is connected is
forwarded to; a named device that is absent fills the buffer with `0xFF` and
fails. -/
def PCIBridge.ConfigRead (bridgeCfg : Nat → Nat) (devs : List (String × ConfigDevSim))
    (w : Nat) (prev : List Nat) (size : Nat) : Bool × List Nat :=
  if PCIE_CONFIG_ADDR.busNum w = 0 ∧ PCIE_CONFIG_ADDR.devNum w = 0 then
    (true, readBytesAt bridgeCfg (PCIE_CONFIG_ADDR.regOffset w) size)
  else
    match PCIBridge.devNumToName (PCIE_CONFIG_ADDR.devNum w) (PCIE_CONFIG_ADDR.functNum w) with
    | none => (true, prev)
    | some nm =>
      match devs.find? (fun p => p.1 = nm) with
      | some p => (true, p.2.configReadData w prev size)
      | none => (false, List.replicate size 0xFF)

/-- `PCIBridge::ConfigWrite(addr, data, size)`: bus 0 device 0 writes the
bridge's own config space; a device number outside the table logs and returns
`true` with no state change; a named connected device receives the write; a
named absent device logs and fails with no state change. -/
def PCIBridge.ConfigWrite (bridgeCfg : Nat → Nat) (devNames : List String)
    (w : Nat) (data : List Nat) : Bool × (Nat → Nat) × List BridgeDevCall :=
  if PCIE_CONFIG_ADDR.busNum w = 0 ∧ PCIE_CONFIG_ADDR.devNum w = 0 then
    (true, storeBytesAt bridgeCfg (PCIE_CONFIG_ADDR.regOffset w) data, [])
  else
    match PCIBridge.devNumToName (PCIE_CONFIG_ADDR.devNum w) (PCIE_CONFIG_ADDR.functNum w) with
    | none => (true, bridgeCfg, [])
    | some nm =>
      match devNames.find? (fun n => n = nm) with
      | some _ => (true, bridgeCfg, [.devConfigWrite nm w data])
      | none => (false, bridgeCfg, [])

end Xenon

namespace Xenon

/-! ## SMC device (src/Xenon/Core/PCI/Devices/SMC/SMC.cpp) -/

/-- `FIFO_STATUS_READY` register value. -/
def FIFO_STATUS_READY : Nat := 0x4

/-- `FIFO_STATUS_BUSY` register value. -/
def FIFO_STATUS_BUSY : Nat := 0x0

/-- `SMI_INT_ENABLED` mask tested against `smiIntEnabledReg`. -/
def SMI_INT_ENABLED : Nat := 0xC

/-- `SMI_INT_PENDING` value written to `smiIntPendingReg`. -/
def SMI_INT_PENDING : Nat := 0x10000000

/-- `CLCK_INT_ENABLED` register value. -/
def CLCK_INT_ENABLED : Nat := 0x10000000

/-- `CLCK_INT_READY` register value. -/
def CLCK_INT_READY : Nat := 0x1

/-- `CLCK_INT_TAKEN` register value. -/
def CLCK_INT_TAKEN : Nat := 0x3

/-- The UART backend as the SMC observes it during a single MMIO access: the
values its `Read`, `retVal` and `ReadStatus` yield (an opaque collaborator;
its own I/O is out of scope). -/
structure UartSim where
  readVal : Nat := 0
  retVal : Bool := false
  status : Nat := 0
  deriving Repr, DecidableEq

/-- The named 32-bit registers of `smcPCIState`. -/
structure SMCPCIState where
  uartOutReg : Nat := 0
  uartInReg : Nat := 0
  uartStatusReg : Nat := 0
  uartConfigReg : Nat := 0
  smiIntPendingReg : Nat := 0
  smiIntAckReg : Nat := 0
  smiIntEnabledReg : Nat := 0
  clockIntEnabledReg : Nat := 0
  clockIntStatusReg : Nat := 0
  fifoInStatusReg : Nat := 0
  fifoOutStatusReg : Nat := 0
  deriving Repr, DecidableEq

/-- The SMC state the claims touch: the PCI register file, the UART backend
view, the 16-byte FIFO buffer with its cursor, the HANA register file (256
32-bit entries), the configured core values, and the process-wide `XeRunning`
flag the standby command clears. -/
structure SMCState where
  pci : SMCPCIState := {}
  uart : UartSim := {}
  fifoDataBuffer : List Nat := List.replicate 16 0
  fifoBufferPos : Nat := 0
  hana : Nat → Nat := fun _ => 0
  currPowerOnReason : Nat := 0
  currTrayState : Nat := 0
  currAVPackType : Nat := 0
  xeRunning : Bool := true

/-- `SMC::Read(addr, data, size)`: dispatch on the low address byte.  The
`FIFO_OUT_DATA` case indexes the 16-byte buffer at the cursor without a bounds
check in the source; the embedding returns `none` when the access leaves the
buffer.  An unknown register logs an error and leaves the destination buffer
unchanged. -/
def SMC.Read (st : SMCState) (addr : Nat) (prev : List Nat) (size : Nat) :
    Option (SMCState × List Nat) :=
  let off := addr % 256
  if off = 0x10 then
    some ({ st with pci := { st.pci with uartOutReg := st.uart.readVal } },
      if st.uart.retVal then bytesLE st.uart.readVal size else prev)
  else if off = 0x18 then
    some ({ st with pci := { st.pci with uartStatusReg := st.uart.status } },
      bytesLE st.uart.status size)
  else if off = 0x1C then some (st, bytesLE st.pci.uartConfigReg size)
  else if off = 0x50 then some (st, bytesLE st.pci.smiIntPendingReg size)
  else if off = 0x58 then some (st, bytesLE st.pci.smiIntAckReg size)
  else if off = 0x5C then some (st, bytesLE st.pci.smiIntEnabledReg size)
  else if off = 0x84 then some (st, bytesLE st.pci.fifoInStatusReg size)
  else if off = 0x94 then some (st, bytesLE st.pci.fifoOutStatusReg size)
  else if off = 0x90 then
    if st.fifoBufferPos + size ≤ 16 then
      some ({ st with fifoBufferPos := st.fifoBufferPos + 4 },
        (List.range size).map (fun k => st.fifoDataBuffer.getD (st.fifoBufferPos + k) 0))
    else none
  else some (st, prev)

/-- `SMC::Write(addr, data, size)`: dispatch on the low address byte.  Writing
`READY` to `FIFO_IN_STATUS` clears the buffer and resets the cursor; writing
`READY` to `FIFO_OUT_STATUS` resets the cursor; the `FIFO_IN_DATA` case copies
into the buffer at the cursor without a bounds check in the source, so the
embedding returns `none` when the access leaves the buffer.  An unknown
register logs an error and changes nothing. -/
def SMC.Write (st : SMCState) (addr : Nat) (data : List Nat) : Option SMCState :=
  let off := addr % 256
  if off = 0x14 then
    some { st with pci := { st.pci with uartInReg := storeLow st.pci.uartInReg (data.take 4) } }
  else if off = 0x1C then
    some { st with pci := { st.pci with uartConfigReg := storeLow st.pci.uartConfigReg (data.take 4) } }
  else if off = 0x50 then
    some { st with pci := { st.pci with smiIntPendingReg := storeLow st.pci.smiIntPendingReg (data.take 4) } }
  else if off = 0x58 then
    some { st with pci := { st.pci with smiIntAckReg := storeLow st.pci.smiIntAckReg (data.take 4) } }
  else if off = 0x5C then
    some { st with pci := { st.pci with smiIntEnabledReg := storeLow st.pci.smiIntEnabledReg (data.take 4) } }
  else if off = 0x64 then
    some { st with pci := { st.pci with clockIntEnabledReg := storeLow st.pci.clockIntEnabledReg (data.take 4) } }
  else if off = 0x6C then
    some { st with pci := { st.pci with clockIntStatusReg := storeLow st.pci.clockIntStatusReg (data.take 4) } }
  else if off = 0x84 then
    let v := storeLow st.pci.fifoInStatusReg (data.take 4)
    let st2 := { st with pci := { st.pci with fifoInStatusReg := v } }
    if v = FIFO_STATUS_READY then
      some { st2 with fifoDataBuffer := List.replicate 16 0, fifoBufferPos := 0 }
    else some st2
  else if off = 0x94 then
    let v := storeLow st.pci.fifoOutStatusReg (data.take 4)
    let st2 := { st with pci := { st.pci with fifoOutStatusReg := v } }
    if v = FIFO_STATUS_READY then
      some { st2 with fifoBufferPos := 0 }
    else some st2
  else if off = 0x80 then
    if st.fifoBufferPos + data.length ≤ 16 then
      let buf2 := writeListAt st.fifoDataBuffer st.fifoBufferPos data
      some { st with fifoDataBuffer := buf2, fifoBufferPos := st.fifoBufferPos + 4 }
    else none
  else some st

/-- Bitwise AND with the 64-bit complement: models `tmp &= ~x` on `u64`. -/
def andNot64 (a b : Nat) : Nat := a &&& ((2 ^ 64 - 1) ^^^ b)

/-- The BAR-size discovery loop of `SMC::ConfigWrite`:
`for (idx = 2; idx < 31; idx++) { tmp &= ~x; x <<= 1; if (x >= size) break; }`,
with the remaining iteration count as fuel (29 iterations for `idx` from 2 to
30). -/
def barSizeLoop (tmp x size : Nat) : Nat → Nat
  | 0 => tmp
  | fuel + 1 =>
    let tmp2 := andNot64 tmp x
    let x2 := x <<< 1
    if x2 ≥ size then tmp2 else barSizeLoop tmp2 x2 size fuel

/-- `SMC::ConfigWrite(addr, data, size)` over the 256-byte config space
(a byte-addressed register file) and the device's `pciDevSizes` vector.  For
an offset in `[0x10, 0x34)` whose BAR has a nonzero declared size, a write of
`0xFFFFFFFF` is replaced by the size mask computed by the discovery loop
(finished by `tmp &= ~0x3`); offset `0x30` (expansion ROM) always stores 0;
every other write stores the value verbatim. -/
def SMC.ConfigWrite (sizes : Nat → Nat) (cfg : Nat → Nat) (addr : Nat)
    (data : List Nat) : Nat → Nat :=
  let off := addr % 256
  let tmp0 := assembleLE (data.take 8)
  let tmp1 :=
    if 0x10 ≤ off ∧ off < 0x34 then
      let regOffset := (off - 0x10) >>> 2
      let t := if sizes regOffset ≠ 0 ∧ tmp0 = 0xFFFFFFFF then
          andNot64 (barSizeLoop tmp0 2 (sizes regOffset) 29) 0x3
        else tmp0
      if off = 0x30 then 0 else t
    else tmp0
  storeBytesAt cfg off (bytesLE tmp1 data.length)

/-- `SMC::ConfigRead(addr, data, size)`: a plain copy out of the config space
at the low byte of the address. -/
def SMC.ConfigRead (cfg : Nat → Nat) (addr size : Nat) : List Nat :=
  readBytesAt cfg (addr % 256) size

/-- The `pciDevSizes` vector the SMC constructor declares: BAR0 gets `0x100`,
the rest stay zero. -/
def smcPciDevSizes : Nat → Nat := fun k => if k = 0 then 0x100 else 0

end Xenon

namespace Xenon

/-! ## SMC FIFO command processing (`SMC::smcMainThread`) -/

/-- The enumerators of the FIFO command switch, in source order, plus the
switch's `default`. -/
inductive SMCCmd where
  | pwronType | queryRTC | queryTempSens | queryTrayState | queryAVPack
  | i2cReadWrite | queryVersion | fifoTest | queryIRAddress | queryTiltSensor
  | read82Int | read8EInt | setStandby | setTime | setFanAlgorithm
  | setFanSpeedCPU | setDVDTray | setPowerLED | setAudioMute | argonRelated
  | setFanSpeedGPU | setIRAddress | setDVDTraySecure | setFPLEDs | setRTCWake
  | anaRelated | setAsyncOperation | set82Int | set9FInt | unknown
  deriving DecidableEq, Repr

/-- Modelled from the spec: the numeric values of the `SMC_CMD` enumerators
live in `SMC.h`, which is not under `src/`.  The spec pins `PWRON_TYPE` to
`0x12` (scenario S1); the others are parameters constrained only by the C++
rule that the constants of one `switch` are pairwise distinct. -/
structure SMCCmdIds where
  pwronType : Nat
  queryRTC : Nat
  queryTempSens : Nat
  queryTrayState : Nat
  queryAVPack : Nat
  i2cReadWrite : Nat
  queryVersion : Nat
  fifoTest : Nat
  queryIRAddress : Nat
  queryTiltSensor : Nat
  read82Int : Nat
  read8EInt : Nat
  setStandby : Nat
  setTime : Nat
  setFanAlgorithm : Nat
  setFanSpeedCPU : Nat
  setDVDTray : Nat
  setPowerLED : Nat
  setAudioMute : Nat
  argonRelated : Nat
  setFanSpeedGPU : Nat
  setIRAddress : Nat
  setDVDTraySecure : Nat
  setFPLEDs : Nat
  setRTCWake : Nat
  anaRelated : Nat
  setAsyncOperation : Nat
  set82Int : Nat
  set9FInt : Nat
  deriving Repr, DecidableEq

/-- The `switch` of `smcMainThread` as a decoder of the message's byte 0, in
source case order. -/
def SMCCmdIds.decode (ids : SMCCmdIds) (b : Nat) : SMCCmd :=
  if b = ids.pwronType then .pwronType
  else if b = ids.queryRTC then .queryRTC
  else if b = ids.queryTempSens then .queryTempSens
  else if b = ids.queryTrayState then .queryTrayState
  else if b = ids.queryAVPack then .queryAVPack
  else if b = ids.i2cReadWrite then .i2cReadWrite
  else if b = ids.queryVersion then .queryVersion
  else if b = ids.fifoTest then .fifoTest
  else if b = ids.queryIRAddress then .queryIRAddress
  else if b = ids.queryTiltSensor then .queryTiltSensor
  else if b = ids.read82Int then .read82Int
  else if b = ids.read8EInt then .read8EInt
  else if b = ids.setStandby then .setStandby
  else if b = ids.setTime then .setTime
  else if b = ids.setFanAlgorithm then .setFanAlgorithm
  else if b = ids.setFanSpeedCPU then .setFanSpeedCPU
  else if b = ids.setDVDTray then .setDVDTray
  else if b = ids.setPowerLED then .setPowerLED
  else if b = ids.setAudioMute then .setAudioMute
  else if b = ids.argonRelated then .argonRelated
  else if b = ids.setFanSpeedGPU then .setFanSpeedGPU
  else if b = ids.setIRAddress then .setIRAddress
  else if b = ids.setDVDTraySecure then .setDVDTraySecure
  else if b = ids.setFPLEDs then .setFPLEDs
  else if b = ids.setRTCWake then .setRTCWake
  else if b = ids.anaRelated then .anaRelated
  else if b = ids.setAsyncOperation then .setAsyncOperation
  else if b = ids.set82Int then .set82Int
  else if b = ids.set9FInt then .set9FInt
  else .unknown

/-- The distinctness facts about `setFPLEDs` implied by the C++ rule that the
constants of one `switch` are pairwise distinct (the only instances the
theorems need). -/
def SMCCmdIds.SetFpLedsDistinct (ids : SMCCmdIds) : Prop :=
  ids.setFPLEDs ≠ ids.pwronType ∧ ids.setFPLEDs ≠ ids.queryRTC ∧
  ids.setFPLEDs ≠ ids.queryTempSens ∧ ids.setFPLEDs ≠ ids.queryTrayState ∧
  ids.setFPLEDs ≠ ids.queryAVPack ∧ ids.setFPLEDs ≠ ids.i2cReadWrite ∧
  ids.setFPLEDs ≠ ids.queryVersion ∧ ids.setFPLEDs ≠ ids.fifoTest ∧
  ids.setFPLEDs ≠ ids.queryIRAddress ∧ ids.setFPLEDs ≠ ids.queryTiltSensor ∧
  ids.setFPLEDs ≠ ids.read82Int ∧ ids.setFPLEDs ≠ ids.read8EInt ∧
  ids.setFPLEDs ≠ ids.setStandby ∧ ids.setFPLEDs ≠ ids.setTime ∧
  ids.setFPLEDs ≠ ids.setFanAlgorithm ∧ ids.setFPLEDs ≠ ids.setFanSpeedCPU ∧
  ids.setFPLEDs ≠ ids.setDVDTray ∧ ids.setFPLEDs ≠ ids.setPowerLED ∧
  ids.setFPLEDs ≠ ids.setAudioMute ∧ ids.setFPLEDs ≠ ids.argonRelated ∧
  ids.setFPLEDs ≠ ids.setFanSpeedGPU ∧ ids.setFPLEDs ≠ ids.setIRAddress ∧
  ids.setFPLEDs ≠ ids.setDVDTraySecure ∧ ids.setFPLEDs ≠ ids.setRTCWake ∧
  ids.setFPLEDs ≠ ids.anaRelated ∧ ids.setFPLEDs ≠ ids.setAsyncOperation ∧
  ids.setFPLEDs ≠ ids.set82Int ∧ ids.setFPLEDs ≠ ids.set9FInt

/-- A side effect of command processing: a `pciBridge->RouteInterrupt` call or
an `XeMain::Reboot` call. -/
inductive SMCEvent where
  | routeInterrupt (prio : Prio)
  | reboot (reason : Nat)
  deriving DecidableEq, Repr

/-- Whether an event is a `RouteInterrupt` call. -/
def SMCEvent.isRouteInterrupt : SMCEvent → Bool
  | .routeInterrupt _ => true
  | _ => false

/-- Result of the command dispatch: the `noResponse` flag, the rewritten FIFO
buffer, the (possibly updated) HANA register file, the `XeRunning` flag and
the collaborator calls made while dispatching. -/
structure SMCDispatchResult where
  noResponse : Bool
  buf : List Nat
  hana : Nat → Nat
  xeRunning : Bool
  events : List SMCEvent

/-- The `SMC_I2C_READ_WRITE` sub-dispatch on byte 1 of the message.  The
sub-op `0x10` HANA branch reproduces the source's byte-by-byte writes: byte 6
of the buffer is overwritten with bits 16..23 of the register before byte 7 is
computed, so byte 7 reads `hanaState` at that freshly written byte, not at the
originally requested index. -/
def smcDispatchI2C (ids : SMCCmdIds) (st : SMCState) : SMCDispatchResult :=
  let buf := st.fifoDataBuffer
  let b1 := buf.getD 1 0
  if b1 = 0x3 then
    ⟨false, (buf.set 0 ids.i2cReadWrite).set 1 0, st.hana, st.xeRunning, []⟩
  else if b1 = 0x5 then
    ⟨false, (buf.set 0 ids.i2cReadWrite).set 1 0, st.hana, st.xeRunning, []⟩
  else if b1 = 0x10 then
    let buf := (buf.set 0 ids.i2cReadWrite).set 1 0x0
    if buf.getD 5 0 = 0xF0 then
      let buf := buf.set 4 (st.hana (buf.getD 6 0) &&& 0xFF)
      let buf := buf.set 5 ((st.hana (buf.getD 6 0) >>> 8) &&& 0xFF)
      let buf := buf.set 6 ((st.hana (buf.getD 6 0) >>> 16) &&& 0xFF)
      let buf := buf.set 7 ((st.hana (buf.getD 6 0) >>> 24) &&& 0xFF)
      ⟨false, buf, st.hana, st.xeRunning, []⟩
    else
      let a := buf.getD 6 0 + (if buf.getD 3 0 = 0x8D then 0x200 else 0x100)
      if a = 0x102 then
        ⟨false, (((buf.set 3 0x53).set 4 0x92).set 5 0).set 6 0, st.hana, st.xeRunning, []⟩
      else
        ⟨false, (((buf.set 3 0).set 4 0).set 5 0).set 6 0, st.hana, st.xeRunning, []⟩
  else if b1 = 0x11 then
    let buf := (buf.set 0 ids.i2cReadWrite).set 1 0
    ⟨false, (((buf.set 3 0).set 4 0).set 5 0).set 6 0, st.hana, st.xeRunning, []⟩
  else if b1 = 0x20 then
    ⟨false, (buf.set 0 ids.i2cReadWrite).set 1 0, st.hana, st.xeRunning, []⟩
  else if b1 = 0x21 then
    ⟨false, (buf.set 0 ids.i2cReadWrite).set 1 0, st.hana, st.xeRunning, []⟩
  else if b1 = 0x60 then
    let buf := (buf.set 0 ids.i2cReadWrite).set 1 0x0
    let idx := buf.getD 6 0
    let v := buf.getD 8 0 ||| buf.getD 9 0 <<< 8 ||| buf.getD 10 0 <<< 16 ||| buf.getD 11 0 <<< 24
    ⟨false, buf, fun a => if a = idx then v else st.hana a, st.xeRunning, []⟩
  else
    ⟨false, (buf.set 0 ids.i2cReadWrite).set 1 0x1, st.hana, st.xeRunning, []⟩

/-- The arms of the `smcMainThread` command switch, as a function of the
decoded command.  Only `SMC_SET_FP_LEDS` sets `noResponse`; `SMC_SET_STANDBY`
subtype `0x01` clears `XeRunning` and subtype `0x04` calls `XeMain::Reboot`
with the byte-2 reason; the unimplemented commands log a warning and leave the
buffer unchanged. -/
def smcDispatchCore (ids : SMCCmdIds) (st : SMCState) : SMCCmd → SMCDispatchResult
  | .pwronType =>
    let buf := ((List.replicate 16 0).set 0 ids.pwronType).set 1 st.currPowerOnReason
    ⟨false, buf, st.hana, st.xeRunning, []⟩
  | .queryRTC =>
    let buf := ((List.replicate 16 0).set 0 ids.queryRTC).set 1 0
    ⟨false, buf, st.hana, st.xeRunning, []⟩
  | .queryTempSens =>
    let buf := (st.fifoDataBuffer.set 0 ids.queryTempSens).set 1 0x24
    let buf := (((buf.set 2 0x1B).set 3 0x2F).set 4 0xA4).set 5 0x2C
    let buf := ((buf.set 6 0x24).set 7 0x26).set 8 0x2C
    ⟨false, buf, st.hana, st.xeRunning, []⟩
  | .queryTrayState =>
    ⟨false, (st.fifoDataBuffer.set 0 ids.queryTrayState).set 1 st.currTrayState, st.hana, st.xeRunning, []⟩
  | .queryAVPack =>
    ⟨false, (st.fifoDataBuffer.set 0 ids.queryAVPack).set 1 st.currAVPackType, st.hana, st.xeRunning, []⟩
  | .i2cReadWrite => smcDispatchI2C ids st
  | .queryVersion =>
    ⟨false, (((st.fifoDataBuffer.set 0 ids.queryVersion).set 1 0x41).set 2 0x02).set 3 0x03, st.hana, st.xeRunning, []⟩
  | .setStandby =>
    let buf := st.fifoDataBuffer.set 0 ids.setStandby
    if buf.getD 1 0 = 0x01 then ⟨false, buf, st.hana, false, []⟩
    else if buf.getD 1 0 = 0x04 then ⟨false, buf, st.hana, st.xeRunning, [.reboot (buf.getD 2 0)]⟩
    else ⟨false, buf, st.hana, st.xeRunning, []⟩
  | .setFPLEDs => ⟨true, st.fifoDataBuffer, st.hana, st.xeRunning, []⟩
  | _ => ⟨false, st.fifoDataBuffer, st.hana, st.xeRunning, []⟩

/-- The command dispatch of `smcMainThread`: decode byte 0 of the message
through the switch's case constants, then run the selected arm. -/
def smcDispatch (ids : SMCCmdIds) (st : SMCState) : SMCDispatchResult :=
  smcDispatchCore ids st (ids.decode (st.fifoDataBuffer.getD 0 0))

/-- The first two status-register writes of FIFO processing: out goes `BUSY`,
in goes `READY`, before the dispatch runs. -/
def processFIFOPre (st : SMCState) : SMCState :=
  { st with pci := { st.pci with fifoOutStatusReg := FIFO_STATUS_BUSY, fifoInStatusReg := FIFO_STATUS_READY } }

/-- One FIFO-processing pass of the SMC thread: if `FIFO_IN_STATUS` is `BUSY`,
set `FIFO_OUT_STATUS` to `BUSY` and `FIFO_IN_STATUS` to `READY`, dispatch on
the message, write the response into the same buffer, set `FIFO_OUT_STATUS`
to `READY`, and — when SMI interrupts are enabled and the command had a
response — set `smiIntPendingReg` and call `RouteInterrupt(SMM)`. -/
def processFIFOStep (ids : SMCCmdIds) (st : SMCState) : SMCState × List SMCEvent :=
  if st.pci.fifoInStatusReg = FIFO_STATUS_BUSY then
    let pre := processFIFOPre st
    let d := smcDispatch ids pre
    let pci2 := { pre.pci with fifoOutStatusReg := FIFO_STATUS_READY }
    let st2 := { pre with fifoDataBuffer := d.buf, hana := d.hana, xeRunning := d.xeRunning, pci := pci2 }
    if st2.pci.smiIntEnabledReg &&& SMI_INT_ENABLED ≠ 0 ∧ d.noResponse = false then
      ({ st2 with pci := { st2.pci with smiIntPendingReg := SMI_INT_PENDING } }, d.events ++ [.routeInterrupt .smm])
    else (st2, d.events)
  else (st, [])

end Xenon

namespace Xenon

/-! ## Byte-helper lemmas shared by the configuration-space theorems -/

/-- Taking 8 bytes of a 4-byte buffer is the whole buffer. -/
lemma bytesLE_four_take_eight (v : Nat) : (bytesLE v 4).take 8 = bytesLE v 4 := by
  simp [bytesLE]

/-- Reassembling the four little-endian bytes of `v` gives `v` modulo `2^32`. -/
lemma assembleLE_bytesLE4 (v : Nat) : assembleLE (bytesLE v 4) = v % 2 ^ 32 := by
  have hr : List.range 4 = [0, 1, 2, 3] := rfl
  simp only [bytesLE, hr, List.map, assembleLE, List.foldr, byteAt]
  norm_num
  omega

/-- Reading four bytes back from where they were just stored yields the stored
bytes. -/
lemma readBack4 (cfg : Nat → Nat) (off t : Nat) :
    readBytesAt (storeBytesAt cfg off (bytesLE t 4)) off 4 = bytesLE t 4 := by
  have h4 : (bytesLE t 4).length = 4 := by simp [bytesLE]
  have hr : List.range 4 = [0, 1, 2, 3] := rfl
  simp only [readBytesAt, hr, List.map, storeBytesAt, h4, bytesLE, byteAt]
  norm_num

/-- A 32-bit config write that does not trigger BAR-size discovery (either the
BAR is unimplemented or the value is not `0xFFFFFFFF`) stores the value
verbatim, and the following read returns it. -/
lemma configWrite_readback_verbatim (sizes cfg : Nat → Nat) (k v : Nat)
    (hk : k ≤ 5) (hv : v < 2 ^ 32) (h : sizes k = 0 ∨ v ≠ 0xFFFFFFFF) :
    assembleLE (SMC.ConfigRead
        (SMC.ConfigWrite sizes cfg (0x10 + 4 * k) (bytesLE v 4)) (0x10 + 4 * k) 4) = v := by
  have hoff : (0x10 + 4 * k) % 256 = 0x10 + 4 * k := by omega
  have hreg : (0x10 + 4 * k - 0x10) >>> 2 = k := by
    rw [Nat.shiftRight_eq_div_pow]; omega
  have htmp : assembleLE ((bytesLE v 4).take 8) = v := by
    rw [bytesLE_four_take_eight, assembleLE_bytesLE4, Nat.mod_eq_of_lt hv]
  have hlen : (bytesLE v 4).length = 4 := by simp [bytesLE]
  unfold SMC.ConfigWrite SMC.ConfigRead
  dsimp only
  rw [hoff, htmp, hlen, hreg]
  rw [if_pos (by omega : (0x10 : Nat) ≤ 0x10 + 4 * k ∧ 0x10 + 4 * k < 0x34)]
  have hc : ¬ (sizes k ≠ 0 ∧ v = 0xFFFFFFFF) := by
    rcases h with h0 | hne
    · exact fun hcc => hcc.1 h0
    · exact fun hcc => hne hcc.2
  rw [if_neg hc]
  rw [if_neg (by omega : ¬ (0x10 + 4 * k = 0x30))]
  rw [readBack4, assembleLE_bytesLE4, Nat.mod_eq_of_lt hv]

/-- C3: BAR-discovery invariant.  For a BAR `k` whose declared size is a power
of two (every device declares power-of-two BAR sizes; the discovery loop
handles sizes up to `2^30`), a 32-bit config write of `0xFFFFFFFF` followed by
a read returns `~(size-1) & 0xFFFFFFFC`, and a subsequent normal (non-
`0xFFFFFFFF`) 32-bit write is stored verbatim, so the next read returns
exactly the written value. -/
theorem bar_discovery_roundtrip (sizes cfg : Nat → Nat) (k m : Nat) (hk : k ≤ 5)
    (hm : m ≤ 30) (hsz : sizes k = 2 ^ m) :
    assembleLE (SMC.ConfigRead
        (SMC.ConfigWrite sizes cfg (0x10 + 4 * k) (bytesLE 0xFFFFFFFF 4))
        (0x10 + 4 * k) 4) =
      (2 ^ 32 - 1 - (sizes k - 1)) &&& 0xFFFFFFFC ∧
    (∀ v : Nat, v < 2 ^ 32 → v ≠ 0xFFFFFFFF →
      assembleLE (SMC.ConfigRead
          (SMC.ConfigWrite sizes
            (SMC.ConfigWrite sizes cfg (0x10 + 4 * k) (bytesLE 0xFFFFFFFF 4))
            (0x10 + 4 * k) (bytesLE v 4))
          (0x10 + 4 * k) 4) = v) := by
  constructor
  · have hoff : (0x10 + 4 * k) % 256 = 0x10 + 4 * k := by omega
    have hreg : (0x10 + 4 * k - 0x10) >>> 2 = k := by
      rw [Nat.shiftRight_eq_div_pow]; omega
    have htmp : assembleLE ((bytesLE 0xFFFFFFFF 4).take 8) = 0xFFFFFFFF := by
      rw [bytesLE_four_take_eight, assembleLE_bytesLE4]; decide
    have hlen : (bytesLE (0xFFFFFFFF : Nat) 4).length = 4 := by simp [bytesLE]
    unfold SMC.ConfigWrite SMC.ConfigRead
    dsimp only
    rw [hoff, htmp, hlen, hreg]
    rw [if_pos (by omega : (0x10 : Nat) ≤ 0x10 + 4 * k ∧ 0x10 + 4 * k < 0x34)]
    have hc : sizes k ≠ 0 ∧ (4294967295 : Nat) = 4294967295 := by
      constructor
      · rw [hsz]; positivity
      · rfl
    rw [if_pos hc]
    rw [if_neg (by omega : ¬ (0x10 + 4 * k = 0x30))]
    rw [readBack4, assembleLE_bytesLE4, hsz]
    interval_cases m <;> decide
  · intro v hv hne
    exact configWrite_readback_verbatim sizes _ k v hk hv (Or.inr hne)

/-- C3 (witness): the spec's S5 scenario.  A device declaring
`barSizes[0] = 0x1000` answers the BAR0 discovery read with `0xFFFFF000`, and
a later normal write (e.g. `0x80000000`) reads back verbatim. -/
theorem bar_discovery_roundtrip_witness :
    assembleLE (SMC.ConfigRead
        (SMC.ConfigWrite (fun k => if k = 0 then 0x1000 else 0) (fun _ => 0) 0x10
          (bytesLE 0xFFFFFFFF 4)) 0x10 4) = 0xFFFFF000 ∧
    assembleLE (SMC.ConfigRead
        (SMC.ConfigWrite (fun k => if k = 0 then 0x1000 else 0)
          (SMC.ConfigWrite (fun k => if k = 0 then 0x1000 else 0) (fun _ => 0) 0x10
            (bytesLE 0xFFFFFFFF 4))
          0x10 (bytesLE 0x80000000 4)) 0x10 4) = 0x80000000 := by
  have h := bar_discovery_roundtrip (fun k => if k = 0 then 0x1000 else 0)
    (fun _ => 0) 0 12 (by decide) (by decide) (by decide)
  constructor
  · exact (by simpa using h.1 : _)
  · simpa using h.2 0x80000000 (by decide) (by decide)

end Xenon

namespace Xenon

/-- C5 (counterexample): the claim fails on the code.  With the SMC's declared
sizes (`barSizes[1] = 0`), a config write of `0xFFFFFFFF` to BAR1 (offset
`0x14`) is stored verbatim and the following read returns `0xFFFFFFFF`, not
zero: nothing in `ConfigWrite`/`ConfigRead` makes an unimplemented BAR read as
zero. -/
theorem bar_zero_size_reads_written_value :
    assembleLE (SMC.ConfigRead
        (SMC.ConfigWrite smcPciDevSizes (fun _ => 0) 0x14 (bytesLE 0xFFFFFFFF 4))
        0x14 4) = 0xFFFFFFFF ∧ (0xFFFFFFFF : Nat) ≠ 0 := by
  constructor
  · decide
  · decide

/-- C5 (amended): for a BAR index with declared size zero, `ConfigWrite`
skips the size-discovery transformation entirely, so any 32-bit value —
including `0xFFFFFFFF` — is stored verbatim and the next `ConfigRead`
returns exactly the last written value (not zero). -/
theorem bar_zero_size_write_verbatim (sizes cfg : Nat → Nat) (k v : Nat)
    (hk : k ≤ 5) (h0 : sizes k = 0) (hv : v < 2 ^ 32) :
    assembleLE (SMC.ConfigRead
        (SMC.ConfigWrite sizes cfg (0x10 + 4 * k) (bytesLE v 4))
        (0x10 + 4 * k) 4) = v :=
  configWrite_readback_verbatim sizes cfg k v hk hv (Or.inl h0)

/-- C5 (witness): the amended theorem at the SMC's own BAR1 with the
`0xFFFFFFFF` probe value. -/
theorem bar_zero_size_write_verbatim_witness :
    assembleLE (SMC.ConfigRead
        (SMC.ConfigWrite smcPciDevSizes (fun _ => 0) (0x10 + 4 * 1) (bytesLE 0xFFFFFFFF 4))
        (0x10 + 4 * 1) 4) = 0xFFFFFFFF :=
  bar_zero_size_write_verbatim smcPciDevSizes (fun _ => 0) 1 0xFFFFFFFF
    (by decide) (by decide) (by decide)

end Xenon

namespace Xenon

/-! ## Theorems about FIFO command processing -/

/-- Decoding hits the `SET_FP_LEDS` case exactly when byte 0 equals its case
constant, given the switch-constant distinctness facts. -/
lemma decode_eq_setFPLEDs (ids : SMCCmdIds) (b : Nat) (hd : ids.SetFpLedsDistinct) :
    ids.decode b = .setFPLEDs ↔ b = ids.setFPLEDs := by
  obtain ⟨h1, h2, h3, h4, h5, h6, h7, h8, h9, h10, h11, h12, h13, h14, h15, h16, h17, h18, h19, h20, h21, h22, h23, h24, h25, h26, h27, h28⟩ := hd
  unfold SMCCmdIds.decode
  by_cases e1 : b = ids.pwronType
  · rw [if_pos e1]; exact iff_of_false (by decide) (fun hb => h1 (hb.symm.trans e1))
  rw [if_neg e1]
  by_cases e2 : b = ids.queryRTC
  · rw [if_pos e2]; exact iff_of_false (by decide) (fun hb => h2 (hb.symm.trans e2))
  rw [if_neg e2]
  by_cases e3 : b = ids.queryTempSens
  · rw [if_pos e3]; exact iff_of_false (by decide) (fun hb => h3 (hb.symm.trans e3))
  rw [if_neg e3]
  by_cases e4 : b = ids.queryTrayState
  · rw [if_pos e4]; exact iff_of_false (by decide) (fun hb => h4 (hb.symm.trans e4))
  rw [if_neg e4]
  by_cases e5 : b = ids.queryAVPack
  · rw [if_pos e5]; exact iff_of_false (by decide) (fun hb => h5 (hb.symm.trans e5))
  rw [if_neg e5]
  by_cases e6 : b = ids.i2cReadWrite
  · rw [if_pos e6]; exact iff_of_false (by decide) (fun hb => h6 (hb.symm.trans e6))
  rw [if_neg e6]
  by_cases e7 : b = ids.queryVersion
  · rw [if_pos e7]; exact iff_of_false (by decide) (fun hb => h7 (hb.symm.trans e7))
  rw [if_neg e7]
  by_cases e8 : b = ids.fifoTest
  · rw [if_pos e8]; exact iff_of_false (by decide) (fun hb => h8 (hb.symm.trans e8))
  rw [if_neg e8]
  by_cases e9 : b = ids.queryIRAddress
  · rw [if_pos e9]; exact iff_of_false (by decide) (fun hb => h9 (hb.symm.trans e9))
  rw [if_neg e9]
  by_cases e10 : b = ids.queryTiltSensor
  · rw [if_pos e10]; exact iff_of_false (by decide) (fun hb => h10 (hb.symm.trans e10))
  rw [if_neg e10]
  by_cases e11 : b = ids.read82Int
  · rw [if_pos e11]; exact iff_of_false (by decide) (fun hb => h11 (hb.symm.trans e11))
  rw [if_neg e11]
  by_cases e12 : b = ids.read8EInt
  · rw [if_pos e12]; exact iff_of_false (by decide) (fun hb => h12 (hb.symm.trans e12))
  rw [if_neg e12]
  by_cases e13 : b = ids.setStandby
  · rw [if_pos e13]; exact iff_of_false (by decide) (fun hb => h13 (hb.symm.trans e13))
  rw [if_neg e13]
  by_cases e14 : b = ids.setTime
  · rw [if_pos e14]; exact iff_of_false (by decide) (fun hb => h14 (hb.symm.trans e14))
  rw [if_neg e14]
  by_cases e15 : b = ids.setFanAlgorithm
  · rw [if_pos e15]; exact iff_of_false (by decide) (fun hb => h15 (hb.symm.trans e15))
  rw [if_neg e15]
  by_cases e16 : b = ids.setFanSpeedCPU
  · rw [if_pos e16]; exact iff_of_false (by decide) (fun hb => h16 (hb.symm.trans e16))
  rw [if_neg e16]
  by_cases e17 : b = ids.setDVDTray
  · rw [if_pos e17]; exact iff_of_false (by decide) (fun hb => h17 (hb.symm.trans e17))
  rw [if_neg e17]
  by_cases e18 : b = ids.setPowerLED
  · rw [if_pos e18]; exact iff_of_false (by decide) (fun hb => h18 (hb.symm.trans e18))
  rw [if_neg e18]
  by_cases e19 : b = ids.setAudioMute
  · rw [if_pos e19]; exact iff_of_false (by decide) (fun hb => h19 (hb.symm.trans e19))
  rw [if_neg e19]
  by_cases e20 : b = ids.argonRelated
  · rw [if_pos e20]; exact iff_of_false (by decide) (fun hb => h20 (hb.symm.trans e20))
  rw [if_neg e20]
  by_cases e21 : b = ids.setFanSpeedGPU
  · rw [if_pos e21]; exact iff_of_false (by decide) (fun hb => h21 (hb.symm.trans e21))
  rw [if_neg e21]
  by_cases e22 : b = ids.setIRAddress
  · rw [if_pos e22]; exact iff_of_false (by decide) (fun hb => h22 (hb.symm.trans e22))
  rw [if_neg e22]
  by_cases e23 : b = ids.setDVDTraySecure
  · rw [if_pos e23]; exact iff_of_false (by decide) (fun hb => h23 (hb.symm.trans e23))
  rw [if_neg e23]
  by_cases e24 : b = ids.setFPLEDs
  · rw [if_pos e24]; exact iff_of_true rfl e24
  rw [if_neg e24]
  by_cases e25 : b = ids.setRTCWake
  · rw [if_pos e25]; exact iff_of_false (by decide) (fun hb => h24 (hb.symm.trans e25))
  rw [if_neg e25]
  by_cases e26 : b = ids.anaRelated
  · rw [if_pos e26]; exact iff_of_false (by decide) (fun hb => h25 (hb.symm.trans e26))
  rw [if_neg e26]
  by_cases e27 : b = ids.setAsyncOperation
  · rw [if_pos e27]; exact iff_of_false (by decide) (fun hb => h26 (hb.symm.trans e27))
  rw [if_neg e27]
  by_cases e28 : b = ids.set82Int
  · rw [if_pos e28]; exact iff_of_false (by decide) (fun hb => h27 (hb.symm.trans e28))
  rw [if_neg e28]
  by_cases e29 : b = ids.set9FInt
  · rw [if_pos e29]; exact iff_of_false (by decide) (fun hb => h28 (hb.symm.trans e29))
  rw [if_neg e29]
  exact iff_of_false (by decide) e24

/-- Of all switch arms, only the `SET_FP_LEDS` one sets `noResponse`. -/
lemma smcDispatchCore_noResponse (ids : SMCCmdIds) (st : SMCState) (c : SMCCmd) :
    ((smcDispatchCore ids st c).noResponse = true) ↔ c = .setFPLEDs := by
  cases c <;> simp [smcDispatchCore, smcDispatchI2C] <;> split_ifs <;> simp

/-- No switch arm itself calls `RouteInterrupt` (the only dispatch-time
collaborator call is the standby reboot). -/
lemma smcDispatchCore_no_route (ids : SMCCmdIds) (st : SMCState) (c : SMCCmd) :
    (smcDispatchCore ids st c).events.filter SMCEvent.isRouteInterrupt = [] := by
  cases c <;> simp [smcDispatchCore, smcDispatchI2C] <;> split_ifs <;>
    simp [SMCEvent.isRouteInterrupt]

/-- The dispatch suppresses the response exactly for a `SET_FP_LEDS` message. -/
lemma smcDispatch_noResponse_iff (ids : SMCCmdIds) (st : SMCState)
    (hd : ids.SetFpLedsDistinct) :
    ((smcDispatch ids st).noResponse = true) ↔
      st.fifoDataBuffer.getD 0 0 = ids.setFPLEDs := by
  unfold smcDispatch
  rw [smcDispatchCore_noResponse, decode_eq_setFPLEDs ids _ hd]

/-- C4: on observing `FIFO_IN_STATUS = BUSY`, the SMC thread first sets
`FIFO_OUT_STATUS = BUSY` and `FIFO_IN_STATUS = READY`, dispatches on byte 0,
writes the response into the same buffer, sets `FIFO_OUT_STATUS = READY`, and
then — exactly when SMI interrupts are enabled and the command is not
`SET_FP_LEDS` — sets `smiIntPendingReg = SMI_INT_PENDING` and performs the
single `RouteInterrupt(SMM)` call. -/
theorem smcFIFO_processing (ids : SMCCmdIds) (st : SMCState)
    (hd : ids.SetFpLedsDistinct) (hbusy : st.pci.fifoInStatusReg = FIFO_STATUS_BUSY) :
    (processFIFOPre st).pci.fifoOutStatusReg = FIFO_STATUS_BUSY ∧
    (processFIFOPre st).pci.fifoInStatusReg = FIFO_STATUS_READY ∧
    (processFIFOStep ids st).1.pci.fifoOutStatusReg = FIFO_STATUS_READY ∧
    (processFIFOStep ids st).1.pci.fifoInStatusReg = FIFO_STATUS_READY ∧
    (processFIFOStep ids st).1.fifoDataBuffer = (smcDispatch ids (processFIFOPre st)).buf ∧
    ((processFIFOStep ids st).2.filter SMCEvent.isRouteInterrupt =
      if st.pci.smiIntEnabledReg &&& SMI_INT_ENABLED ≠ 0 ∧ st.fifoDataBuffer.getD 0 0 ≠ ids.setFPLEDs
      then [.routeInterrupt .smm] else []) ∧
    ((st.pci.smiIntEnabledReg &&& SMI_INT_ENABLED ≠ 0 ∧ st.fifoDataBuffer.getD 0 0 ≠ ids.setFPLEDs) →
      (processFIFOStep ids st).1.pci.smiIntPendingReg = SMI_INT_PENDING) := by
  have hb0 : (processFIFOPre st).fifoDataBuffer.getD 0 0 = st.fifoDataBuffer.getD 0 0 := rfl
  have hnr := smcDispatch_noResponse_iff ids (processFIFOPre st) hd
  rw [hb0] at hnr
  have hnrf : ((smcDispatch ids (processFIFOPre st)).noResponse = false) ↔
      ¬ (st.fifoDataBuffer.getD 0 0 = ids.setFPLEDs) := by
    rw [← hnr]
    cases (smcDispatch ids (processFIFOPre st)).noResponse <;> simp
  have hroute : (smcDispatch ids (processFIFOPre st)).events.filter SMCEvent.isRouteInterrupt = [] :=
    smcDispatchCore_no_route ids (processFIFOPre st) _
  unfold processFIFOStep
  rw [if_pos hbusy]
  dsimp only [processFIFOPre] at hnr hnrf hroute ⊢
  by_cases hcond : st.pci.smiIntEnabledReg &&& SMI_INT_ENABLED ≠ 0 ∧
      (smcDispatch ids { st with pci := { st.pci with fifoOutStatusReg := FIFO_STATUS_BUSY, fifoInStatusReg := FIFO_STATUS_READY } }).noResponse = false
  · rw [if_pos hcond]
    have hcond2 : st.pci.smiIntEnabledReg &&& SMI_INT_ENABLED ≠ 0 ∧
        st.fifoDataBuffer.getD 0 0 ≠ ids.setFPLEDs := ⟨hcond.1, hnrf.mp hcond.2⟩
    refine ⟨rfl, rfl, rfl, rfl, rfl, ?_, fun _ => rfl⟩
    rw [if_pos hcond2]
    simp [List.filter_append, hroute, SMCEvent.isRouteInterrupt]
  · rw [if_neg hcond]
    have hcond2 : ¬ (st.pci.smiIntEnabledReg &&& SMI_INT_ENABLED ≠ 0 ∧
        st.fifoDataBuffer.getD 0 0 ≠ ids.setFPLEDs) := by
      intro hc
      exact hcond ⟨hc.1, hnrf.mpr hc.2⟩
    refine ⟨rfl, rfl, rfl, rfl, rfl, ?_, fun hc => absurd hc hcond2⟩
    rw [if_neg hcond2]
    exact hroute

/-- An example assignment of switch constants: `PWRON_TYPE = 0x12` as the spec
pins it, the rest pairwise distinct. -/
def smcCmdIdsExample : SMCCmdIds :=
  ⟨0x12, 1, 2, 3, 4, 5, 6, 7, 8, 9, 10, 11, 13, 14, 15, 16, 17, 19, 20, 21, 22, 23, 24, 25, 26, 27, 28, 29, 30⟩

/-- A state with a complete `PWRON_TYPE` message and SMI interrupts enabled. -/
def smcBusyStateExample : SMCState :=
  { pci := { smiIntEnabledReg := 0xC, fifoInStatusReg := 0 },
    fifoDataBuffer := [0x12, 0, 0, 0, 0, 0, 0, 0, 0, 0, 0, 0, 0, 0, 0, 0] }

/-- C4 (witness): the processing theorem at the example constants and a
concrete busy state carrying a `PWRON_TYPE` message. -/
theorem smcFIFO_processing_witness :
    (processFIFOPre smcBusyStateExample).pci.fifoOutStatusReg = FIFO_STATUS_BUSY ∧
    (processFIFOPre smcBusyStateExample).pci.fifoInStatusReg = FIFO_STATUS_READY ∧
    (processFIFOStep smcCmdIdsExample smcBusyStateExample).1.pci.fifoOutStatusReg = FIFO_STATUS_READY ∧
    (processFIFOStep smcCmdIdsExample smcBusyStateExample).1.pci.fifoInStatusReg = FIFO_STATUS_READY ∧
    (processFIFOStep smcCmdIdsExample smcBusyStateExample).1.fifoDataBuffer =
      (smcDispatch smcCmdIdsExample (processFIFOPre smcBusyStateExample)).buf ∧
    ((processFIFOStep smcCmdIdsExample smcBusyStateExample).2.filter SMCEvent.isRouteInterrupt =
      if smcBusyStateExample.pci.smiIntEnabledReg &&& SMI_INT_ENABLED ≠ 0 ∧
          smcBusyStateExample.fifoDataBuffer.getD 0 0 ≠ smcCmdIdsExample.setFPLEDs
      then [.routeInterrupt .smm] else []) ∧
    ((smcBusyStateExample.pci.smiIntEnabledReg &&& SMI_INT_ENABLED ≠ 0 ∧
        smcBusyStateExample.fifoDataBuffer.getD 0 0 ≠ smcCmdIdsExample.setFPLEDs) →
      (processFIFOStep smcCmdIdsExample smcBusyStateExample).1.pci.smiIntPendingReg = SMI_INT_PENDING) :=
  smcFIFO_processing smcCmdIdsExample smcBusyStateExample
    (by unfold SMCCmdIds.SetFpLedsDistinct; decide) (by decide)

end Xenon

namespace Xenon

/-- First message of the HANA round-trip run: `I2C_READ_WRITE` sub-op `0x60`
storing 0 into HANA register `0xAD`, presented as a complete busy FIFO. -/
def hanaRunSt0 : SMCState :=
  { pci := { fifoInStatusReg := 0 },
    fifoDataBuffer := [5, 0x60, 0, 0, 0, 0, 0xAD, 0, 0, 0, 0, 0, 0, 0, 0, 0] }

/-- State after the SMC processes the first message. -/
def hanaRunSt1 : SMCState := (processFIFOStep smcCmdIdsExample hanaRunSt0).1

/-- State after the SMC also processes the second message: sub-op `0x60`
storing `0xDEADBEEF` into HANA register `0x12`. -/
def hanaRunSt2 : SMCState :=
  (processFIFOStep smcCmdIdsExample
    { hanaRunSt1 with
      fifoDataBuffer := [5, 0x60, 0, 0, 0, 0, 0x12, 0, 0xEF, 0xBE, 0xAD, 0xDE, 0, 0, 0, 0],
      pci := { hanaRunSt1.pci with fifoInStatusReg := 0 } }).1

/-- State after the SMC also processes the third message: the sub-op `0x10`
read of HANA register `0x12` (byte 5 = `0xF0`, byte 6 = `0x12`). -/
def hanaRunSt3 : SMCState :=
  (processFIFOStep smcCmdIdsExample
    { hanaRunSt2 with
      fifoDataBuffer := [5, 0x10, 0, 0, 0, 0xF0, 0x12, 0, 0, 0, 0, 0, 0, 0, 0, 0],
      pci := { hanaRunSt2.pci with fifoInStatusReg := 0 } }).1

/-- C2: evaluation of the embedded code at the failing input.  The guest first
stores 0 into HANA register `0xAD` (sub-op `0x60`), then stores `0xDEADBEEF`
into HANA register `0x12`, then issues the sub-op `0x10` read with byte 5 =
`0xF0` and byte 6 = `0x12`.  The stored register is correct (`0xDEADBEEF`),
and response bytes 4..6 are `0xEF, 0xBE, 0xAD` as the claim demands — but
byte 7 is `0x00`, not the claimed `0xDE`: the source overwrites buffer byte 6
with `(V >> 16) & 0xFF = 0xAD` before computing byte 7, so byte 7 reads
`hanaState[0xAD]` instead of `hanaState[0x12]`. -/
theorem hana_roundtrip_byte7_wrong :
    hanaRunSt2.hana 0x12 = 0xDEADBEEF ∧
    hanaRunSt3.fifoDataBuffer.getD 4 0 = 0xEF ∧
    hanaRunSt3.fifoDataBuffer.getD 5 0 = 0xBE ∧
    hanaRunSt3.fifoDataBuffer.getD 6 0 = 0xAD ∧
    hanaRunSt3.fifoDataBuffer.getD 7 0 = 0x00 ∧
    hanaRunSt3.fifoDataBuffer.getD 7 0 ≠ 0xDE := by
  decide

end Xenon

namespace Xenon

/-- The guest's cursor-resetting `READY` write to `FIFO_IN_STATUS`, from the
SMC's reset state. -/
def fifoInReset : Option SMCState := SMC.Write {} 0x84 (bytesLE FIFO_STATUS_READY 4)

/-- One guest 32-bit write to `FIFO_IN_DATA`. -/
def fifoDataWrite (st : SMCState) : Option SMCState :=
  SMC.Write st 0x80 (bytesLE 0x11223344 4)

/-- The state after the status reset and four data writes. -/
def fifoWrite4 : Option SMCState :=
  (((fifoInReset.bind fifoDataWrite).bind fifoDataWrite).bind fifoDataWrite).bind fifoDataWrite

/-- The guest's cursor-resetting `READY` write to `FIFO_OUT_STATUS` after the
four data writes. -/
def fifoOutReset : Option SMCState :=
  fifoWrite4.bind (fun st => SMC.Write st 0x94 (bytesLE FIFO_STATUS_READY 4))

/-- One guest 32-bit read from `FIFO_OUT_DATA` (keeping the state). -/
def fifoDataRead (st : SMCState) : Option SMCState :=
  (SMC.Read st 0x90 [0, 0, 0, 0] 4).map Prod.fst

/-- The state after the out-status reset and four data reads. -/
def fifoRead4 : Option SMCState :=
  (((fifoOutReset.bind fifoDataRead).bind fifoDataRead).bind fifoDataRead).bind fifoDataRead

/-- C9: the FIFO cursor is not bounds-checked.  After the guest's status reset,
four 32-bit writes to `FIFO_IN_DATA` drive `fifoBufferPos` to 16, and the
fifth write indexes past the 16-byte buffer — the `Option`-returning embedding
of the unchecked `memcpy` fails.  Symmetrically, after a `READY` write to
`FIFO_OUT_STATUS`, four `FIFO_OUT_DATA` reads drive the cursor to 16 and the
fifth read fails.  Both overflows are reachable through the public MMIO
interface alone. -/
theorem fifo_cursor_overflow :
    fifoWrite4.map SMCState.fifoBufferPos = some 16 ∧
    fifoWrite4.bind fifoDataWrite = none ∧
    fifoRead4.map SMCState.fifoBufferPos = some 16 ∧
    fifoRead4.bind fifoDataRead = none := by
  exact ⟨rfl, rfl, rfl, rfl⟩

end Xenon

namespace Xenon

/-- C6 (counterexample): the claim fails on the code.  A 4-byte read at
`0xEA000008` — inside the bridge's own window but not a documented register —
returns `true` and leaves the caller's buffer exactly as it was (`0xAB`
bytes); nothing zeroes the destination. -/
theorem unimpl_reg_read_not_zeroed :
    PCIBridge.Read {} [] 0xEA000008 [0xAB, 0xAB, 0xAB, 0xAB] 4 =
      (true, [0xAB, 0xAB, 0xAB, 0xAB]) ∧
    ([0xAB, 0xAB, 0xAB, 0xAB] : List Nat) ≠ List.replicate 4 0 := by
  constructor
  · decide
  · decide

/-- C6 (amended): for an offset inside a device's recognized window that is
not a documented register, the access logs at error level and is otherwise a
no-op: a read returns with the destination buffer unchanged (it is not
zero-filled), and a write changes no device state and forwards nothing.  This
holds for the PCI bridge's own window and for the SMC's register file. -/
theorem unimpl_reg_access_unchanged (bst : PCIBridgeState) (devs : List PCIDevSim)
    (addr : Nat) (prev : List Nat) (size : Nat) (sst : SMCState) (soff : Nat)
    (sdata : List Nat)
    (hin : PCI_BRIDGE_BASE_ADDRESS ≤ addr ∧ addr ≤ PCI_BRIDGE_BASE_END_ADDRESS)
    (hnotb : addr ∉ ([0xEA000000, 0xEA000004, 0xEA00000C, 0xEA000010, 0xEA000014,
      0xEA000018, 0xEA00001C, 0xEA000020, 0xEA000024, 0xEA000028, 0xEA00002C,
      0xEA000038, 0xEA00003C, 0xEA000040, 0xEA000044] : List Nat))
    (hsr : soff % 256 ∉ ([0x10, 0x18, 0x1C, 0x50, 0x58, 0x5C, 0x84, 0x94, 0x90] : List Nat))
    (hsw : soff % 256 ∉ ([0x14, 0x1C, 0x50, 0x58, 0x5C, 0x64, 0x6C, 0x84, 0x94, 0x80] : List Nat)) :
    PCIBridge.Read bst devs addr prev size = (true, prev) ∧
    PCIBridge.Write bst devs addr sdata = (true, bst, []) ∧
    SMC.Read sst soff prev size = some (sst, prev) ∧
    SMC.Write sst soff sdata = some sst := by
  simp only [List.mem_cons, List.not_mem_nil, or_false, not_or] at hnotb hsr hsw
  obtain ⟨b1, b2, b3, b4, b5, b6, b7, b8, b9, b10, b11, b12, b13, b14, b15⟩ := hnotb
  obtain ⟨r1, r2, r3, r4, r5, r6, r7, r8, r9⟩ := hsr
  obtain ⟨w1, w2, w3, w4, w5, w6, w7, w8, w9, w10⟩ := hsw
  refine ⟨?_, ?_, ?_, ?_⟩
  · unfold PCIBridge.Read
    rw [if_pos hin, if_neg b1, if_neg b2, if_neg b3, if_neg b4, if_neg b5,
      if_neg b6, if_neg b7, if_neg b8, if_neg b9, if_neg b10, if_neg b11,
      if_neg b12, if_neg b13, if_neg b14, if_neg b15]
  · unfold PCIBridge.Write
    dsimp only
    rw [if_pos hin, if_neg b1, if_neg b2, if_neg b3, if_neg b4, if_neg b5,
      if_neg b6, if_neg b7, if_neg b8, if_neg b9, if_neg b10, if_neg b11,
      if_neg b12, if_neg b13, if_neg b14, if_neg b15]
  · unfold SMC.Read
    dsimp only
    rw [if_neg r1, if_neg r2, if_neg r3, if_neg r4, if_neg r5, if_neg r6,
      if_neg r7, if_neg r8, if_neg r9]
  · unfold SMC.Write
    dsimp only
    rw [if_neg w1, if_neg w2, if_neg w3, if_neg w4, if_neg w5, if_neg w6,
      if_neg w7, if_neg w8, if_neg w9, if_neg w10]

/-- C6 (witness): the amended theorem at concrete unknown offsets
(`0xEA000008` for the bridge, `0x20` for the SMC) with a recognizable buffer. -/
theorem unimpl_reg_access_unchanged_witness :
    PCIBridge.Read {} [] 0xEA000008 [1, 2, 3, 4] 4 = (true, [1, 2, 3, 4]) ∧
    PCIBridge.Write {} [] 0xEA000008 [9, 9, 9, 9] = (true, {}, []) ∧
    SMC.Read {} 0x20 [1, 2, 3, 4] 4 = some ({}, [1, 2, 3, 4]) ∧
    SMC.Write {} 0x20 [9, 9, 9, 9] = some {} :=
  unimpl_reg_access_unchanged {} [] 0xEA000008 [1, 2, 3, 4] 4 {} 0x20 [9, 9, 9, 9]
    (by decide) (by decide) (by decide) (by decide)

end Xenon

namespace Xenon

/-- C7 (counterexample): the claim fails on the code.  A config read at device
number `0x3` — outside the fixed device-number table — hits the switch's
`default` branch, which logs and returns `true` immediately: the destination
buffer is left untouched (here all zeros), not filled with `0xFF`. -/
theorem configRead_unknown_devnum_not_ff :
    PCIBridge.ConfigRead (fun _ => 0) [] (0x3 <<< 11) [0, 0, 0, 0] 4 =
      (true, [0, 0, 0, 0]) ∧
    ([0, 0, 0, 0] : List Nat) ≠ List.replicate 4 0xFF := by
  constructor
  · decide
  · decide

/-- C7 (amended): configuration accesses to absent slots.  For a device
number outside the fixed table, reads return `true` with the destination
buffer unchanged (no `0xFF` fill) and writes are dropped.  For a table entry
whose named device is not connected, reads fill the destination with `0xFF`
and fail, and writes are dropped and fail.  In both cases no bridge or device
state changes and nothing is forwarded. -/
theorem config_absent_slot (bridgeCfg : Nat → Nat) (devs : List (String × ConfigDevSim))
    (devNames : List String) (w : Nat) (prev data : List Nat) (size : Nat)
    (hnz : ¬ (PCIE_CONFIG_ADDR.busNum w = 0 ∧ PCIE_CONFIG_ADDR.devNum w = 0)) :
    (PCIBridge.devNumToName (PCIE_CONFIG_ADDR.devNum w) (PCIE_CONFIG_ADDR.functNum w) = none →
      PCIBridge.ConfigRead bridgeCfg devs w prev size = (true, prev) ∧
      PCIBridge.ConfigWrite bridgeCfg devNames w data = (true, bridgeCfg, [])) ∧
    (∀ nm, PCIBridge.devNumToName (PCIE_CONFIG_ADDR.devNum w) (PCIE_CONFIG_ADDR.functNum w) = some nm →
      devs.find? (fun p => p.1 = nm) = none →
      devNames.find? (fun n => n = nm) = none →
      PCIBridge.ConfigRead bridgeCfg devs w prev size = (false, List.replicate size 0xFF) ∧
      PCIBridge.ConfigWrite bridgeCfg devNames w data = (false, bridgeCfg, [])) := by
  refine ⟨fun hn => ⟨?_, ?_⟩, fun nm hn hf1 hf2 => ⟨?_, ?_⟩⟩
  · unfold PCIBridge.ConfigRead
    rw [if_neg hnz, hn]
  · unfold PCIBridge.ConfigWrite
    rw [if_neg hnz, hn]
  · unfold PCIBridge.ConfigRead
    rw [if_neg hnz, hn]
    dsimp only
    rw [hf1]
  · unfold PCIBridge.ConfigWrite
    rw [if_neg hnz, hn]
    dsimp only
    rw [hf2]

/-- C7 (witness): the amended theorem at the concrete absent slot
`devNum = 0x3` (with no devices connected, so the named-absent implication is
also applicable to any table entry). -/
theorem config_absent_slot_witness :
    (PCIBridge.devNumToName (PCIE_CONFIG_ADDR.devNum (0x3 <<< 11)) (PCIE_CONFIG_ADDR.functNum (0x3 <<< 11)) = none →
      PCIBridge.ConfigRead (fun _ => 0) [] (0x3 <<< 11) [0, 0, 0, 0] 4 = (true, [0, 0, 0, 0]) ∧
      PCIBridge.ConfigWrite (fun _ => 0) [] (0x3 <<< 11) [9, 9, 9, 9] = (true, (fun _ => 0), [])) ∧
    (∀ nm, PCIBridge.devNumToName (PCIE_CONFIG_ADDR.devNum (0x3 <<< 11)) (PCIE_CONFIG_ADDR.functNum (0x3 <<< 11)) = some nm →
      ([] : List (String × ConfigDevSim)).find? (fun p => p.1 = nm) = none →
      ([] : List String).find? (fun n => n = nm) = none →
      PCIBridge.ConfigRead (fun _ => 0) [] (0x3 <<< 11) [0, 0, 0, 0] 4 = (false, List.replicate 4 0xFF) ∧
      PCIBridge.ConfigWrite (fun _ => 0) [] (0x3 <<< 11) [9, 9, 9, 9] = (false, (fun _ => 0), [])) :=
  config_absent_slot (fun _ => 0) [] [] (0x3 <<< 11) [0, 0, 0, 0] [9, 9, 9, 9] 4 (by decide)

end Xenon

namespace Xenon

/-- `DeviceInfo` (src/Xenon/Base/SystemDevice.h): name, address range, SOC
flag.  Addresses are `u64` in the source; the range hypotheses of the
theorems keep the `Nat` model inside `u64`. -/
structure DeviceInfo where
  deviceName : String := ""
  startAddr : Nat := 0
  endAddr : Nat := 0
  socDevice : Bool := false

/-- `SystemDevice::GetSize()`: the source returns
`info.startAddr - info.endAddr` on `u64`, i.e. the difference wrapped modulo
`2^64` — with the operands in that order. -/
def SystemDevice.GetSize (info : DeviceInfo) : Nat :=
  (info.startAddr + 2 ^ 64 - info.endAddr % 2 ^ 64) % 2 ^ 64

/-- C10: for a device constructed with the normal half-open range
(`endAddr > startAddr`), `GetSize()` returns `startAddr - endAddr` wrapped
modulo `2^64` — the value `2^64 - (endAddr - startAddr)` near `2^64` — and in
particular not the range length `endAddr - startAddr` (they could only
coincide at a length of exactly `2^63`). -/
theorem getSize_wraps (info : DeviceInfo) (h1 : info.startAddr < info.endAddr)
    (h2 : info.endAddr < 2 ^ 64) :
    SystemDevice.GetSize info = 2 ^ 64 - (info.endAddr - info.startAddr) ∧
    (info.endAddr - info.startAddr ≠ 2 ^ 63 →
      SystemDevice.GetSize info ≠ info.endAddr - info.startAddr) := by
  unfold SystemDevice.GetSize
  omega

/-- C10 (witness): the theorem at a concrete device range `[0x100, 0x200)`:
`GetSize` yields `2^64 - 0x100`, not the length `0x100`. -/
theorem getSize_wraps_witness :
    SystemDevice.GetSize { deviceName := "NAND", startAddr := 0x100, endAddr := 0x200 } =
      2 ^ 64 - (0x200 - 0x100) ∧
    ((0x200 - 0x100 : Nat) ≠ 2 ^ 63 →
      SystemDevice.GetSize { deviceName := "NAND", startAddr := 0x100, endAddr := 0x200 } ≠ 0x200 - 0x100) :=
  getSize_wraps { deviceName := "NAND", startAddr := 0x100, endAddr := 0x200 }
    (by decide) (by norm_num)

end Xenon
